import Mathlib

/-
Verification development for the monitoring-and-alerting engine of the
mentisprotocol/mentis-app repository.

Shallow embedding conventions:
- Postgres rows become Lean structures; a table becomes a List of rows.
- Timestamps and uptime percentages are rationals; time is measured in days.
- A SQL NULL column is an Option none; node-postgres returns aggregate
  results as strings or null, and the JavaScript comparison x < 95 coerces
  null to 0, which is modelled by Option.getD 0.
- Code that can throw returns Except JsError; external I/O outcomes are
  passed in as explicit oracle arguments.
-/

/-- Alert severity levels, from types.ts (AlertSeverity enum). -/
inductive AlertSeverity
  | low
  | medium
  | high
  | critical
deriving DecidableEq, Repr

/-- Agent status values, from types.ts (AgentStatus enum). -/
inductive AgentStatus
  | active
  | inactive
  | error
  | maintenance
deriving DecidableEq, Repr

/-- System status values for the SystemHealth overview, from MonitoringService.ts. -/
inductive SystemStatusKind
  | healthy
  | warning
  | critical
deriving DecidableEq, Repr

/-- A thrown JavaScript Error, identified by its message. -/
structure JsError where
  message : String
deriving DecidableEq, Repr

/-- A row of the agents table joined with its latest metric sample
(latestUptime is none when the agent has no metric rows, matching the
LEFT JOIN LATERAL in getSystemHealth). -/
structure AgentRow where
  id : String
  user_id : String
  status : AgentStatus
  latestUptime : Option ℚ
deriving DecidableEq, Repr

/-- A row of the alerts table. resolvedAt and resolvedBy are NULL until the
alert is resolved. createdAt and resolvedAt are timestamps in days. -/
structure AlertRow where
  id : String
  agent_id : String
  user_id : String
  type_ : String
  severity : AlertSeverity
  message : String
  createdAt : ℚ
  resolved : Bool
  resolvedAt : Option ℚ
  resolvedBy : Option String
deriving DecidableEq, Repr

/-- The JavaScript numeric coercion applied to a nullable numeric column:
null coerces to 0 in a relational comparison such as stats.avg_uptime < 95,
and parseFloat of null is NaN which the expression parseFloat(x) || 0 turns
into 0. A present numeric value is used as is. -/
def jsNumOrZero (o : Option ℚ) : ℚ := o.getD 0

/-- The system status classification of MonitoringService.getSystemHealth
(lines 273-280): critical when error_agents > 0 or unresolvedAlerts > 10,
else warning when avg_uptime < 95 or unresolvedAlerts > 5, else healthy.
The avg_uptime column is NULL for an empty agents table and JavaScript
compares null as 0. -/
def systemStatus (errorAgents unresolvedAlerts : ℕ) (avgUptime : Option ℚ) :
    SystemStatusKind :=
  if 0 < errorAgents ∨ 10 < unresolvedAlerts then SystemStatusKind.critical
  else if jsNumOrZero avgUptime < 95 ∨ 5 < unresolvedAlerts then SystemStatusKind.warning
  else SystemStatusKind.healthy

/-- The SQL aggregate
AVG(CASE WHEN latest_metrics.uptime IS NOT NULL THEN uptime ELSE 0 END)
over the agents table: NULL on an empty table, otherwise the mean with
missing uptimes counted as 0. -/
def avgUptimeSql (agents : List AgentRow) : Option ℚ :=
  match agents with
  | [] => none
  | _ => some (((agents.map (fun a => jsNumOrZero a.latestUptime)).sum) / agents.length)

/-- The count of rows of the alerts table with resolved = false, as computed
by the second query of getSystemHealth. -/
def unresolvedCount (alerts : List AlertRow) : ℕ :=
  (alerts.filter (fun a => !a.resolved)).length

/-- The SystemHealth overview returned by getSystemHealth. -/
structure SystemHealth where
  totalAgents : ℕ
  activeAgents : ℕ
  errorAgents : ℕ
  avgUptime : ℚ
  unresolvedAlerts : ℕ
  systemStatus : SystemStatusKind
deriving DecidableEq, Repr

/-- MonitoringService.getSystemHealth (lines 246-294) over the database
state: aggregates the agents table, counts unresolved alerts, classifies,
and returns avgUptime as parseFloat(avg_uptime) || 0. -/
def getSystemHealth (agents : List AgentRow) (alerts : List AlertRow) : SystemHealth :=
  let errorAgents := (agents.filter (fun a => a.status == AgentStatus.error)).length
  let unresolved := unresolvedCount alerts
  let avg := avgUptimeSql agents
  { totalAgents := agents.length
    activeAgents := (agents.filter (fun a => a.status == AgentStatus.active)).length
    errorAgents := errorAgents
    avgUptime := jsNumOrZero avg
    unresolvedAlerts := unresolved
    systemStatus := systemStatus errorAgents unresolved avg }

/-- C1: the health classification returns critical exactly when
errorCount > 0 or unresolvedAlertCount > 10; otherwise warning exactly when
avgUptime < 95 or unresolvedAlertCount > 5; otherwise healthy — first match
wins and the boundaries are strict (avgUptime exactly 95 is not warning,
unresolvedAlertCount exactly 5 is not warning, exactly 6 is warning, and the
critical rule takes precedence even when avgUptime < 95 simultaneously).
totalCount and activeCount do not influence the classification. -/
theorem systemStatus_classification (_totalCount _activeCount e n : ℕ) (u : ℚ) :
    (systemStatus e n (some u) = SystemStatusKind.critical ↔ 0 < e ∨ 10 < n) ∧
    (systemStatus e n (some u) = SystemStatusKind.warning ↔
      (e = 0 ∧ n ≤ 10) ∧ (u < 95 ∨ 5 < n)) ∧
    (systemStatus e n (some u) = SystemStatusKind.healthy ↔
      e = 0 ∧ n ≤ 10 ∧ 95 ≤ u ∧ n ≤ 5) ∧
    systemStatus 0 5 (some 95) = SystemStatusKind.healthy ∧
    systemStatus 0 6 (some 100) = SystemStatusKind.warning ∧
    systemStatus 1 0 (some 50) = SystemStatusKind.critical ∧
    systemStatus 0 11 (some 50) = SystemStatusKind.critical := by
  have hg : jsNumOrZero (some u) = u := rfl
  refine ⟨?_, ?_, ?_, by decide, by decide, by decide, by decide⟩
  · unfold systemStatus
    split_ifs with h1 h2
    · simpa using h1
    · constructor
      · intro hx; cases hx
      · intro hx; exact absurd hx h1
    · constructor
      · intro hx; cases hx
      · intro hx; exact absurd hx h1
  · unfold systemStatus
    simp only [hg]
    split_ifs with h1 h2
    · constructor
      · intro hx; cases hx
      · intro hx
        obtain ⟨⟨he, hn⟩, _⟩ := hx
        rcases h1 with h | h <;> omega
    · constructor
      · intro _; exact ⟨⟨by omega, by omega⟩, h2⟩
      · intro _; rfl
    · constructor
      · intro hx; cases hx
      · intro hx; exact absurd hx.2 h2
  · unfold systemStatus
    simp only [hg]
    split_ifs with h1 h2
    · constructor
      · intro hx; cases hx
      · intro hx
        obtain ⟨he, hn, _, hn5⟩ := hx
        rcases h1 with h | h <;> omega
    · constructor
      · intro hx; cases hx
      · intro hx
        obtain ⟨he, hn, hu, hn5⟩ := hx
        rcases h2 with h | h
        · exact absurd hu (not_le.mpr h)
        · omega
    · rcases not_or.mp h2 with ⟨hu, hn5⟩
      constructor
      · intro _
        exact ⟨by omega, by omega, not_lt.mp hu, by omega⟩
      · intro _; rfl

/-- C9: on an empty fleet the average uptime aggregate is NULL, which the
JavaScript warning comparison treats as 0 < 95, so for any unresolved alert
count of at most 10 the snapshot status is warning, and the returned
avgUptime field is 0. -/
theorem getSystemHealth_empty_fleet (alerts : List AlertRow)
    (h : unresolvedCount alerts ≤ 10) :
    (getSystemHealth [] alerts).systemStatus = SystemStatusKind.warning ∧
    (getSystemHealth [] alerts).avgUptime = 0 := by
  unfold getSystemHealth systemStatus avgUptimeSql jsNumOrZero
  simp only [List.filter_nil, List.length_nil, Option.getD_none]
  constructor
  · have h1 : ¬(0 < 0 ∨ 10 < unresolvedCount alerts) := by omega
    rw [if_neg h1, if_pos]
    left
    norm_num
  · trivial

/-- Witness for C9 at the empty alerts table. -/
theorem getSystemHealth_empty_fleet_witness :
    unresolvedCount [] ≤ 10 ∧
    (getSystemHealth [] []).systemStatus = SystemStatusKind.warning ∧
    (getSystemHealth [] []).avgUptime = 0 :=
  ⟨by decide, (getSystemHealth_empty_fleet [] (by decide)).1,
    (getSystemHealth_empty_fleet [] (by decide)).2⟩

/-- AgentService.resolveAlert (part_001 lines 347-361): the SQL statement
UPDATE alerts SET resolved = true, resolved_at = CURRENT_TIMESTAMP,
resolved_by = dollar-1 WHERE id = dollar-2 updates every row whose id
matches, with no resolved = false guard in the WHERE clause. -/
def resolveAlert (alertId userId : String) (now : ℚ) (alerts : List AlertRow) :
    List AlertRow :=
  alerts.map fun a =>
    if a.id = alertId then
      { a with resolved := true, resolvedAt := some now, resolvedBy := some userId }
    else a

/-- Lookup of an alert row by id (SELECT by primary key). -/
def findAlert (alertId : String) (alerts : List AlertRow) : Option AlertRow :=
  alerts.find? (fun a => a.id == alertId)

/-- Resolving rewrites exactly the looked-up row: the row found after
resolveAlert is the row found before, with resolved set and the resolution
fields overwritten by the new values. -/
theorem findAlert_resolveAlert (alertId userId : String) (now : ℚ)
    (alerts : List AlertRow) :
    findAlert alertId (resolveAlert alertId userId now alerts) =
      (findAlert alertId alerts).map
        (fun a => { a with resolved := true, resolvedAt := some now,
                           resolvedBy := some userId }) := by
  unfold findAlert resolveAlert
  induction alerts with
  | nil => rfl
  | cons a tl ih =>
      by_cases h : a.id = alertId
      · rw [List.map_cons, if_pos h,
          List.find?_cons_of_pos _ (by simpa using h),
          List.find?_cons_of_pos _ (by simpa using h)]
        rfl
      · rw [List.map_cons, if_neg h,
          List.find?_cons_of_neg _ (by simpa using h),
          List.find?_cons_of_neg _ (by simpa using h)]
        exact ih

/-- Concrete unresolved alert row used to exercise resolveAlert. -/
def alertA1 : AlertRow :=
  { id := "a1", agent_id := "g1", user_id := "u0", type_ := "latency",
    severity := AlertSeverity.high, message := "slow", createdAt := 0,
    resolved := false, resolvedAt := none, resolvedBy := none }

/-- Alerts table after a first resolveAlert call by user u1 at time 1. -/
def resolvedOnce : List AlertRow := resolveAlert "a1" "u1" 1 [alertA1]

/-- Alerts table after a second resolveAlert call by user u2 at time 2. -/
def resolvedTwice : List AlertRow := resolveAlert "a1" "u2" 2 resolvedOnce

/-- C2 counterexample: a second resolveAlert call on the same id with a
different resolver at a later time does not leave resolvedAt and resolvedBy
at the values set by the first call — the unconditioned UPDATE overwrites
both, so the fields are not immutable once set. -/
theorem resolveAlert_second_call_overwrites :
    (findAlert "a1" resolvedOnce).map AlertRow.resolvedBy = some (some "u1") ∧
    (findAlert "a1" resolvedOnce).map AlertRow.resolvedAt = some (some 1) ∧
    (findAlert "a1" resolvedTwice).map AlertRow.resolvedBy = some (some "u2") ∧
    (findAlert "a1" resolvedTwice).map AlertRow.resolvedAt = some (some 2) ∧
    ¬((findAlert "a1" resolvedTwice).map AlertRow.resolvedBy =
        (findAlert "a1" resolvedOnce).map AlertRow.resolvedBy) ∧
    ¬((findAlert "a1" resolvedTwice).map AlertRow.resolvedAt =
        (findAlert "a1" resolvedOnce).map AlertRow.resolvedAt) := by
  refine ⟨rfl, rfl, rfl, rfl, ?_, ?_⟩ <;> decide

/-- C2 amended: re-resolution is last-writer-wins, not first-writer-wins:
after two resolveAlert calls on the same id, the row holds resolved = true
with resolvedAt and resolvedBy equal to the values of the second call; the
first call determines nothing that survives a later call. -/
theorem resolveAlert_twice_last_writer_wins (alerts : List AlertRow)
    (alertId u1 u2 : String) (t1 t2 : ℚ) :
    findAlert alertId (resolveAlert alertId u2 t2 (resolveAlert alertId u1 t1 alerts)) =
      (findAlert alertId alerts).map
        (fun a => { a with resolved := true, resolvedAt := some t2,
                           resolvedBy := some u2 }) := by
  rw [findAlert_resolveAlert, findAlert_resolveAlert, Option.map_map]
  cases findAlert alertId alerts <;> rfl

/-- A node-cron job handle; the name field matches the template
agent-monitor-agentId used at MonitoringService.ts line 115. -/
structure Job where
  name : String
deriving DecidableEq, Repr

/-- The monitoringJobs registry: a JavaScript Map from job id to job handle,
embedded as an association list whose keys are unique by Map semantics. -/
abbrev Registry := List (String × Job)

/-- Map.has: whether a key is present in the registry. -/
def mapHas (m : Registry) (k : String) : Bool :=
  m.any (fun p => p.1 == k)

/-- Map.set: replaces the value in place when the key is present, appends a
new entry otherwise, as a JavaScript Map does. -/
def mapSet (m : Registry) (k : String) (v : Job) : Registry :=
  match m with
  | [] => [(k, v)]
  | (k1, v1) :: tl => if k1 = k then (k, v) :: tl else (k1, v1) :: mapSet tl k v

/-- Map.delete: removes the entry with the given key. -/
def mapDelete (m : Registry) (k : String) : Registry :=
  m.filter (fun p => !(p.1 == k))

/-- MonitoringService.startAgentMonitoring (lines 101-130) acting on the job
registry: when the id is already registered it logs a warning and returns
with the registry untouched and no error; otherwise it registers the cron
job, starts it, and performs an initial health check whose outcome is the
returned Except (an initial-check error is rethrown after the registry was
already updated). The initial check outcome is passed as an oracle. -/
def startAgentMonitoring (reg : Registry) (agentId : String)
    (initialCheck : Except JsError Unit) : Registry × Except JsError Unit :=
  if mapHas reg agentId then (reg, Except.ok ())
  else (mapSet reg agentId ⟨ "agent-monitor-" ++ agentId⟩, initialCheck)

/-- MonitoringService.stopAgentMonitoring (lines 135-144): silently returns
when the id is absent, otherwise destroys the job and deletes the entry. -/
def stopAgentMonitoring (reg : Registry) (agentId : String) : Registry :=
  if mapHas reg agentId then mapDelete reg agentId else reg

/-- Setting an absent key appends the entry at the end of the registry. -/
theorem mapSet_of_not_mem (m : Registry) (k : String) (v : Job)
    (h : mapHas m k = false) : mapSet m k v = m ++ [(k, v)] := by
  induction m with
  | nil => rfl
  | cons p tl ih =>
      simp only [mapHas, List.any_cons, Bool.or_eq_false_iff] at h
      obtain ⟨h1, h2⟩ := h
      cases p with
      | mk k1 v1 =>
          have hne : k1 ≠ k := by simpa using h1
          simp only [mapSet, if_neg hne, List.cons_append, List.cons.injEq, true_and]
          exact ih h2

/-- An absent key has no occurrence among the registry keys. -/
theorem mapHas_false_count (m : Registry) (k : String)
    (h : mapHas m k = false) : m.countP (fun p => p.1 == k) = 0 := by
  induction m with
  | nil => rfl
  | cons p tl ih =>
      simp only [mapHas, List.any_cons, Bool.or_eq_false_iff] at h
      obtain ⟨h1, h2⟩ := h
      rw [List.countP_cons]
      simp only [h1, if_false]
      exact ih h2

/-- After stopAgentMonitoring the id is no longer registered. -/
theorem mapHas_stopAgentMonitoring (reg : Registry) (agentId : String) :
    mapHas (stopAgentMonitoring reg agentId) agentId = false := by
  unfold stopAgentMonitoring
  by_cases h : mapHas reg agentId
  · rw [if_pos h]
    unfold mapDelete mapHas
    simp [List.any_filter]
  · rw [if_neg h]
    simpa using h

/-- C7: the job registry keeps at most one job per id: starting monitoring
for an id that is already registered returns the registry unchanged with no
error and no replacement job; both start and stop preserve uniqueness of the
registered ids; and stopping then restarting monitoring for an id leaves
exactly one registered entry for that id. -/
theorem startAgentMonitoring_single_job (reg : Registry) (agentId : String)
    (c : Except JsError Unit) :
    (mapHas reg agentId = true →
      startAgentMonitoring reg agentId c = (reg, Except.ok ())) ∧
    ((reg.map Prod.fst).Nodup →
      (((startAgentMonitoring reg agentId c).1).map Prod.fst).Nodup ∧
      ((stopAgentMonitoring reg agentId).map Prod.fst).Nodup) ∧
    ((startAgentMonitoring (stopAgentMonitoring reg agentId) agentId c).1.countP
        (fun p => p.1 == agentId) = 1) := by
  refine ⟨?_, ?_, ?_⟩
  · intro h
    unfold startAgentMonitoring
    rw [if_pos h]
  · intro hnd
    constructor
    · unfold startAgentMonitoring
      by_cases h : mapHas reg agentId
      · rw [if_pos h]; exact hnd
      · rw [if_neg h]
        simp only [mapSet_of_not_mem reg agentId _ (by simpa using h), List.map_append]
        rw [List.nodup_append]
        refine ⟨hnd, List.nodup_singleton _, ?_⟩
        intro x hx hy
        simp only [List.map_cons, List.map_nil, List.mem_singleton] at hy
        rw [List.mem_map] at hx
        obtain ⟨p, hp, hpk⟩ := hx
        have hmem : mapHas reg agentId = true := by
          unfold mapHas
          rw [List.any_eq_true]
          refine ⟨p, hp, ?_⟩
          simp [hpk, hy]
        simp [hmem] at h
    · unfold stopAgentMonitoring
      by_cases h : mapHas reg agentId
      · rw [if_pos h]
        unfold mapDelete
        exact List.Nodup.sublist (List.Sublist.map _ (List.filter_sublist _)) hnd
      · rw [if_neg h]; exact hnd
  · have habs := mapHas_stopAgentMonitoring reg agentId
    unfold startAgentMonitoring
    rw [if_neg (by simp [habs]), mapSet_of_not_mem _ _ _ habs, List.countP_append]
    rw [mapHas_false_count _ _ habs]
    simp

/-- Witness for C7 at a one-entry registry holding the id agent-1. -/
theorem startAgentMonitoring_single_job_witness :
    startAgentMonitoring [( "agent-1", ⟨ "agent-monitor-agent-1"⟩)] "agent-1"
        (Except.ok ()) = ([( "agent-1", ⟨ "agent-monitor-agent-1"⟩)], Except.ok ()) ∧
    ((((startAgentMonitoring [( "agent-1", ⟨ "agent-monitor-agent-1"⟩)] "agent-1"
        (Except.ok ())).1).map Prod.fst).Nodup ∧
      ((stopAgentMonitoring [( "agent-1", ⟨ "agent-monitor-agent-1"⟩)] "agent-1").map
        Prod.fst).Nodup) ∧
    ((startAgentMonitoring
        (stopAgentMonitoring [( "agent-1", ⟨ "agent-monitor-agent-1"⟩)] "agent-1")
        "agent-1" (Except.ok ())).1.countP (fun p => p.1 == "agent-1") = 1) :=
  ⟨(startAgentMonitoring_single_job _ _ _).1 (by decide),
   (startAgentMonitoring_single_job _ _ _).2.1 (by decide),
   (startAgentMonitoring_single_job _ _ _).2.2⟩

/-- State of the per-resource scheduling model: the registered jobs and the
multiset of resource ids with a health-check cycle currently in flight. -/
structure SchedState where
  jobs : Registry
  inFlight : List String
deriving DecidableEq, Repr

/-- Interleaving semantics of the per-agent cron jobs of
MonitoringService.ts. A tick step fires the callback registered at lines
111-113, which awaits performAgentHealthCheck unconditionally: the handler
consults no in-flight record, so the step is enabled whenever the job is
registered, regardless of how many checks for the same id are already
running. A completion step finishes one in-flight check. The checks suspend
at their await points, so ticks of the 30-second cron trigger can fire while
a prior check is still in flight. -/
inductive SchedStep : SchedState → SchedState → Prop
  | tick (s : SchedState) (agentId : String)
      (h : mapHas s.jobs agentId = true) :
      SchedStep s ⟨s.jobs, agentId :: s.inFlight⟩
  | complete (s : SchedState) (agentId : String) (pre post : List String)
      (h : s.inFlight = pre ++ agentId :: post) :
      SchedStep s ⟨s.jobs, pre ++ post⟩

/-- Reachability under the scheduler step relation. -/
def SchedReachable (s t : SchedState) : Prop :=
  Relation.ReflTransGen SchedStep s t

/-- State right after startAgentMonitoring registered the job for agent-1
and the initial health check completed: one registered job, nothing in
flight. -/
def monitorInit : SchedState :=
  ⟨[( "agent-1", ⟨ "agent-monitor-agent-1"⟩)], []⟩

/-- State with two concurrently running health checks for agent-1. -/
def overlapState : SchedState :=
  ⟨[( "agent-1", ⟨ "agent-monitor-agent-1"⟩)], [ "agent-1", "agent-1"]⟩

/-- The serialization property asserted by the claim: from the given initial
state, every reachable state has at most one in-flight check per resource
id. -/
def PerResourceSerialized (init : SchedState) : Prop :=
  ∀ s, SchedReachable init s → ∀ agentId, s.inFlight.count agentId ≤ 1

/-- C3 counterexample: two consecutive cron ticks with no intervening
completion put two concurrent health checks for agent-1 in flight — the
handler has no reentrancy guard, so check cycles for one resource are not
serialized. -/
theorem schedStep_overlap_counterexample :
    SchedReachable monitorInit overlapState ∧
    overlapState.inFlight.count "agent-1" = 2 ∧
    ¬ PerResourceSerialized monitorInit := by
  have h1 : SchedStep monitorInit ⟨monitorInit.jobs, "agent-1" :: monitorInit.inFlight⟩ :=
    SchedStep.tick monitorInit "agent-1" (by decide)
  have h2 : SchedStep ⟨monitorInit.jobs, [ "agent-1"]⟩
      ⟨monitorInit.jobs, "agent-1" :: [ "agent-1"]⟩ :=
    SchedStep.tick ⟨monitorInit.jobs, [ "agent-1"]⟩ "agent-1" (by decide)
  have hreach : SchedReachable monitorInit overlapState :=
    Relation.ReflTransGen.head h1 (Relation.ReflTransGen.head h2 Relation.ReflTransGen.refl)
  refine ⟨hreach, by decide, ?_⟩
  intro hser
  have := hser overlapState hreach "agent-1"
  simp [overlapState] at this

/-- C3 amended: the source has no per-resource reentrancy guard. Whenever
the job for a resource id is registered, a scheduled tick starts a new
health check unconditionally — nothing is skipped — so the number of
in-flight checks for that id grows by one even if checks are already
running, and overlapping check cycles for one resource are possible. -/
theorem schedStep_tick_unguarded (s : SchedState) (agentId : String)
    (h : mapHas s.jobs agentId = true) :
    SchedStep s ⟨s.jobs, agentId :: s.inFlight⟩ ∧
    (agentId :: s.inFlight).count agentId = s.inFlight.count agentId + 1 :=
  ⟨SchedStep.tick s agentId h, List.count_cons_self agentId s.inFlight⟩

/-- Witness for C3 amended: a tick in the initial one-job state starts a
check for agent-1 even though the guard claimed by the specification would
have to consult the in-flight record. -/
theorem schedStep_tick_unguarded_witness :
    mapHas monitorInit.jobs "agent-1" = true ∧
    (SchedStep monitorInit ⟨monitorInit.jobs, "agent-1" :: monitorInit.inFlight⟩ ∧
      ( "agent-1" :: monitorInit.inFlight).count "agent-1" =
        monitorInit.inFlight.count "agent-1" + 1) :=
  ⟨by decide, schedStep_tick_unguarded monitorInit "agent-1" (by decide)⟩

/-- Result object of a completed agent task (AIAgentService.executeTask). -/
structure TaskResult where
  status : String
deriving DecidableEq, Repr

/-- Outcomes of the external operations performed during one agent
health-check cycle, passed as oracles: the AI task execution, the agents
table update, and the createAlert call made in the catch branch. -/
structure CheckEnv where
  executeTask : Except JsError TaskResult
  updateAgent : Except JsError Unit
  createAlertCall : Except JsError String
deriving Repr

/-- MonitoringService.performAgentHealthCheck (lines 149-186): the try block
executes the agent task, broadcasts, and updates the agent; any error from
those awaits is caught and logged, and the catch branch then awaits
this.createAlert for a critical health_check_failed alert. The createAlert
call is not wrapped, so its error leaves the function. -/
def performAgentHealthCheck (env : CheckEnv) : Except JsError Unit :=
  match (do let _t ← env.executeTask; env.updateAgent : Except JsError Unit) with
  | Except.ok _ => Except.ok ()
  | Except.error _e => Except.map (fun _ => ()) env.createAlertCall

/-- The cron callback registered by startAgentMonitoring at lines 111-113:
it awaits performAgentHealthCheck with no surrounding try or catch. -/
def agentMonitorTick (env : CheckEnv) : Except JsError Unit :=
  performAgentHealthCheck env

/-- The system health cron callback (lines 341-358): the whole body sits in
a try block whose catch only logs, so any error of the body is swallowed. -/
def systemHealthTick (body : Except JsError Unit) : Except JsError Unit :=
  match body with
  | Except.ok _ => Except.ok ()
  | Except.error _ => Except.ok ()

/-- The periodic cleanup cron callback (lines 386-402): body in a try block
whose catch only logs. -/
def cleanupTick (body : Except JsError Unit) : Except JsError Unit :=
  match body with
  | Except.ok _ => Except.ok ()
  | Except.error _ => Except.ok ()

/-- The metrics broadcasting cron callback (lines 411-444): body in a try
block whose catch only logs. -/
def metricsBroadcastTick (body : Except JsError Unit) : Except JsError Unit :=
  match body with
  | Except.ok _ => Except.ok ()
  | Except.error _ => Except.ok ()

/-- Tick environment in which the health check fails and the subsequent
createAlert call fails as well (for example because the agent row was
deleted while its monitoring job was still registered). -/
def failingCheckEnv : CheckEnv :=
  { executeTask := Except.error ⟨ "Task execution failed"⟩
    updateAgent := Except.ok ()
    createAlertCall := Except.error ⟨ "Agent not found"⟩ }

/-- C4 counterexample: a tick of the per-agent monitoring job in which the
health check fails and the failure-alert creation then fails is not caught
at the tick boundary — the createAlert error propagates out of the cron
callback instead of being logged and swallowed. -/
theorem agentMonitorTick_error_escapes :
    agentMonitorTick failingCheckEnv = Except.error ⟨ "Agent not found"⟩ ∧
    ¬ agentMonitorTick failingCheckEnv = Except.ok () := by
  refine ⟨rfl, ?_⟩
  intro h
  rw [show agentMonitorTick failingCheckEnv = Except.error ⟨ "Agent not found"⟩ from rfl] at h
  cases h

/-- C4 amended: the system health, cleanup, and metrics broadcast tick
handlers catch every error of their bodies at the tick boundary, and the
per-agent tick catches every error of the health-check execution and agent
update; but an error raised while creating the failure alert in the catch
branch propagates past the tick boundary — every escaping error of the
per-agent tick is an error of the createAlert call. -/
theorem tick_error_containment (b1 b2 b3 : Except JsError Unit) (env : CheckEnv) :
    systemHealthTick b1 = Except.ok () ∧
    cleanupTick b2 = Except.ok () ∧
    metricsBroadcastTick b3 = Except.ok () ∧
    (∀ e, agentMonitorTick env = Except.error e →
      env.createAlertCall = Except.error e) ∧
    (∀ alertId, env.createAlertCall = Except.ok alertId →
      agentMonitorTick env = Except.ok ()) := by
  refine ⟨?_, ?_, ?_, ?_, ?_⟩
  · cases b1 <;> rfl
  · cases b2 <;> rfl
  · cases b3 <;> rfl
  · obtain ⟨et, ua, ca⟩ := env
    intro e he
    cases et with
    | error e1 =>
        cases ca with
        | error e2 =>
            have hred : agentMonitorTick ⟨Except.error e1, ua, Except.error e2⟩ =
                Except.error e2 := rfl
            rw [hred] at he
            injection he with h2
            show (Except.error e2 : Except JsError String) = Except.error e
            rw [h2]
        | ok v => exact Except.noConfusion he
    | ok t =>
        cases ua with
        | error e1 =>
            cases ca with
            | error e2 =>
                have hred : agentMonitorTick
                    ⟨Except.ok t, Except.error e1, Except.error e2⟩ =
                    Except.error e2 := rfl
                rw [hred] at he
                injection he with h2
                show (Except.error e2 : Except JsError String) = Except.error e
                rw [h2]
            | ok v => exact Except.noConfusion he
        | ok v => exact Except.noConfusion he
  · obtain ⟨et, ua, ca⟩ := env
    intro alertId hc
    change ca = Except.ok alertId at hc
    subst hc
    cases et with
    | error e1 => rfl
    | ok t =>
        cases ua with
        | error e1 => rfl
        | ok v => rfl

/-- Witness for C4 amended at the failing environment: the escaping error of
the per-agent tick is exactly the createAlert error. -/
theorem tick_error_containment_witness :
    systemHealthTick (Except.error ⟨ "db down"⟩) = Except.ok () ∧
    failingCheckEnv.createAlertCall = Except.error ⟨ "Agent not found"⟩ :=
  ⟨(tick_error_containment (Except.error ⟨ "db down"⟩) (Except.ok ())
      (Except.ok ()) failingCheckEnv).1,
   (tick_error_containment (Except.error ⟨ "db down"⟩) (Except.ok ())
      (Except.ok ()) failingCheckEnv).2.2.2.1 ⟨ "Agent not found"⟩ rfl⟩

/-- Payload of MonitoringService.createAlert. -/
structure AlertData where
  type_ : String
  severity : AlertSeverity
  message : String
deriving DecidableEq, Repr

/-- Observable state touched by MonitoringService.createAlert: the agents
and alerts tables, the WebSocket rooms that received an alert event, the
sendAlert invocations handed to the notification service as pairs of user
id and alert id, and the redis cache entries as pairs of key and cached
message. -/
structure MonitoringState where
  agents : List AgentRow
  alerts : List AlertRow
  broadcasts : List (String × String)
  notified : List (String × String)
  cache : List (String × String)
deriving DecidableEq, Repr

/-- AgentService.getAgentById restricted to what createAlert consumes: the
row of the agents table with the given id, if any. -/
def getAgentById (agents : List AgentRow) (agentId : String) : Option AgentRow :=
  agents.find? (fun a => a.id == agentId)

/-- MonitoringService.createAlert (lines 191-241): looks up the agent and
throws Agent not found when it is absent; otherwise inserts the alert row
(the store assigns newId and the row starts unresolved), emits the alert on
the agent room and the owning user room, invokes the notification fanout
exactly when severity is high or critical, and caches the alert under
alert:newId. On the unknown-agent path the function rethrows after logging
and no state component is touched. -/
def createAlert (st : MonitoringState) (agentId : String) (alertData : AlertData)
    (newId : String) (now : ℚ) : Except JsError String × MonitoringState :=
  match getAgentById st.agents agentId with
  | none => (Except.error ⟨ "Agent not found"⟩, st)
  | some agent =>
      let row : AlertRow :=
        { id := newId, agent_id := agentId, user_id := agent.user_id,
          type_ := alertData.type_, severity := alertData.severity,
          message := alertData.message, createdAt := now,
          resolved := false, resolvedAt := none, resolvedBy := none }
      (Except.ok newId,
        { st with
          alerts := st.alerts ++ [row]
          broadcasts := st.broadcasts ++
            [( "agent-" ++ agentId, "alert"), ( "user-" ++ agent.user_id, "alert")]
          notified := st.notified ++
            (if alertData.severity = AlertSeverity.high ∨
                alertData.severity = AlertSeverity.critical
             then [(agent.user_id, newId)] else [])
          cache := st.cache ++ [( "alert:" ++ newId, alertData.message)] })

/-- C5: createAlert on an agent id unknown to the store fails with the
Agent not found error and leaves the state untouched: no alert row is
inserted, no broadcast is emitted, no notification fanout is invoked, and
no cache entry is written. -/
theorem createAlert_unknown_agent (st : MonitoringState) (agentId : String)
    (d : AlertData) (newId : String) (now : ℚ)
    (h : getAgentById st.agents agentId = none) :
    createAlert st agentId d newId now = (Except.error ⟨ "Agent not found"⟩, st) ∧
    (createAlert st agentId d newId now).2.alerts = st.alerts ∧
    (createAlert st agentId d newId now).2.broadcasts = st.broadcasts ∧
    (createAlert st agentId d newId now).2.notified = st.notified ∧
    (createAlert st agentId d newId now).2.cache = st.cache := by
  have hc : createAlert st agentId d newId now = (Except.error ⟨ "Agent not found"⟩, st) := by
    unfold createAlert
    rw [h]
  exact ⟨hc, by rw [hc], by rw [hc], by rw [hc], by rw [hc]⟩

/-- Witness for C5 at an empty store. -/
theorem createAlert_unknown_agent_witness :
    createAlert ⟨[], [], [], [], []⟩ "ghost"
        ⟨ "latency", AlertSeverity.high, "slow"⟩ "a9" 0 =
      (Except.error ⟨ "Agent not found"⟩, ⟨[], [], [], [], []⟩) :=
  (createAlert_unknown_agent ⟨[], [], [], [], []⟩ "ghost"
    ⟨ "latency", AlertSeverity.high, "slow"⟩ "a9" 0 (by decide)).1

/-- A row of the agent_metrics table restricted to the column the retention
sweep consults; recordedAt is a timestamp in days. -/
structure MetricRow where
  agent_id : String
  recordedAt : ℚ
deriving DecidableEq, Repr

/-- First DELETE of the cleanup job (line 389-391): removes the metric rows
with recorded_at older than 30 days before now. -/
def cleanupMetrics (now : ℚ) (metrics : List MetricRow) : List MetricRow :=
  metrics.filter (fun m => !(decide (m.recordedAt < now - 30)))

/-- SQL comparison of a nullable timestamp column against a cutoff: NULL is
never less than anything, so a row with a NULL resolved_at does not satisfy
the DELETE condition. -/
def sqlLtCutoff (t : Option ℚ) (cutoff : ℚ) : Bool :=
  match t with
  | none => false
  | some x => decide (x < cutoff)

/-- Second DELETE of the cleanup job (lines 393-395): removes the alert rows
with resolved = true and resolved_at older than 7 days before now. -/
def cleanupAlerts (now : ℚ) (alerts : List AlertRow) : List AlertRow :=
  alerts.filter (fun a => !(a.resolved && sqlLtCutoff a.resolvedAt (now - 7)))

/-- C8: the retention sweep keeps exactly the metric samples at most 30 days
old and keeps an alert exactly when it is not both resolved and resolved
more than 7 days ago: a resolved alert whose resolution is 8 days old is
deleted, one whose resolution is 6 days old is kept, and an unresolved
alert is never deleted by the sweep regardless of its age. -/
theorem cleanup_retention (now : ℚ) (metrics : List MetricRow)
    (alerts : List AlertRow) :
    (∀ m, m ∈ cleanupMetrics now metrics ↔
      m ∈ metrics ∧ ¬(m.recordedAt < now - 30)) ∧
    (∀ a, a ∈ cleanupAlerts now alerts ↔
      a ∈ alerts ∧ ¬(a.resolved = true ∧ ∃ t, a.resolvedAt = some t ∧ t < now - 7)) ∧
    (∀ a, a ∈ alerts → a.resolved = false → a ∈ cleanupAlerts now alerts) ∧
    (∀ a, a ∈ alerts → a.resolved = true → a.resolvedAt = some (now - 8) →
      ¬ a ∈ cleanupAlerts now alerts) ∧
    (∀ a, a ∈ alerts → a.resolvedAt = some (now - 6) → a ∈ cleanupAlerts now alerts) := by
  have hmem : ∀ a, a ∈ cleanupAlerts now alerts ↔
      a ∈ alerts ∧ ¬(a.resolved = true ∧ ∃ t, a.resolvedAt = some t ∧ t < now - 7) := by
    intro a
    unfold cleanupAlerts
    rw [List.mem_filter]
    constructor
    · rintro ⟨ha, hb⟩
      refine ⟨ha, ?_⟩
      rintro ⟨hr, t, ht, hlt⟩
      rw [hr] at hb
      unfold sqlLtCutoff at hb
      rw [ht] at hb
      simp [hlt] at hb
    · rintro ⟨ha, hb⟩
      refine ⟨ha, ?_⟩
      cases hr : a.resolved with
      | false => simp
      | true =>
          cases ht : a.resolvedAt with
          | none => simp [sqlLtCutoff, ht]
          | some t =>
              have hnot : ¬ t < now - 7 := fun hlt => hb ⟨hr, t, ht, hlt⟩
              simp [sqlLtCutoff, ht, hr, hnot]
  refine ⟨?_, hmem, ?_, ?_, ?_⟩
  · intro m
    unfold cleanupMetrics
    rw [List.mem_filter]
    constructor
    · rintro ⟨hm, hb⟩
      exact ⟨hm, by simpa using hb⟩
    · rintro ⟨hm, hb⟩
      exact ⟨hm, by simpa using hb⟩
  · intro a ha hr
    rw [hmem a]
    refine ⟨ha, ?_⟩
    rintro ⟨hr2, _⟩
    rw [hr] at hr2
    cases hr2
  · intro a ha hr ht
    rw [hmem a]
    rintro ⟨_, hb⟩
    exact hb ⟨hr, now - 8, ht, by linarith⟩
  · intro a ha ht
    rw [hmem a]
    refine ⟨ha, ?_⟩
    rintro ⟨hr, t, ht2, hlt⟩
    rw [ht] at ht2
    injection ht2 with h6
    rw [← h6] at hlt
    linarith

/-- Resolved alert whose resolution is 8 days old at sweep time 100. -/
def alertAged8 : AlertRow :=
  { id := "a8", agent_id := "g1", user_id := "u1", type_ := "latency",
    severity := AlertSeverity.low, message := "old", createdAt := 80,
    resolved := true, resolvedAt := some 92, resolvedBy := some "u1" }

/-- Resolved alert whose resolution is 6 days old at sweep time 100. -/
def alertAged6 : AlertRow :=
  { id := "a6", agent_id := "g1", user_id := "u1", type_ := "latency",
    severity := AlertSeverity.low, message := "recent", createdAt := 80,
    resolved := true, resolvedAt := some 94, resolvedBy := some "u1" }

/-- Very old alert that was never resolved. -/
def alertAncientUnresolved : AlertRow :=
  { id := "a0", agent_id := "g1", user_id := "u1", type_ := "latency",
    severity := AlertSeverity.low, message := "ancient", createdAt := 0,
    resolved := false, resolvedAt := none, resolvedBy := none }

/-- Witness for C8 at sweep time 100: the sweep deletes the 8-day resolved
alert, keeps the 6-day resolved alert, and keeps the ancient unresolved
alert. -/
theorem cleanup_retention_witness :
    ¬ alertAged8 ∈ cleanupAlerts 100 [alertAged8, alertAged6, alertAncientUnresolved] ∧
    alertAged6 ∈ cleanupAlerts 100 [alertAged8, alertAged6, alertAncientUnresolved] ∧
    alertAncientUnresolved ∈
      cleanupAlerts 100 [alertAged8, alertAged6, alertAncientUnresolved] :=
  ⟨(cleanup_retention 100 [] [alertAged8, alertAged6, alertAncientUnresolved]).2.2.2.1
      alertAged8 (by decide) (by decide) (by norm_num [alertAged8]),
   (cleanup_retention 100 [] [alertAged8, alertAged6, alertAncientUnresolved]).2.2.2.2
      alertAged6 (by decide) (by norm_num [alertAged6]),
   (cleanup_retention 100 [] [alertAged8, alertAged6, alertAncientUnresolved]).2.2.1
      alertAncientUnresolved (by decide) (by decide)⟩

/-- One notification channel of NotificationService.sendAlert (part_002):
email, Slack webhook, Telegram chat, and generic webhook. -/
inductive Channel
  | email
  | slack
  | telegram
  | webhook
deriving DecidableEq, Repr

/-- A row of the notification_settings table as read by
getUserNotificationSettings; the endpoint columns are nullable strings. -/
structure NotificationSettings where
  email_enabled : Bool
  slack_webhook_url : Option String
  telegram_chat_id : Option String
  webhook_url : Option String
deriving DecidableEq, Repr

/-- JavaScript truthiness of a nullable string column, as used in the
conditions if settings.slack_webhook_url and friends: null and the empty
string are falsy. -/
def jsTruthyStr (o : Option String) : Bool :=
  match o with
  | none => false
  | some s => !s.isEmpty

/-- A row of the users table as read by sendAlert. -/
structure UserRow where
  email : String
deriving DecidableEq, Repr

/-- The alert object handed to the notification fanout
(MonitoringAlert interface of MonitoringService.ts). -/
structure MonitoringAlert where
  id : String
  agentId : String
  type_ : String
  severity : AlertSeverity
  message : String
  timestamp : ℚ
  resolved : Bool
deriving DecidableEq, Repr

/-- Outcomes of the external operations of one sendAlert run, passed as
oracles: the notification_settings query, the users query, and the result
of each channel sender for a given alert. -/
structure SendEnv where
  settingsQuery : Except JsError (Option NotificationSettings)
  userQuery : Except JsError (Option UserRow)
  channelSend : Channel → MonitoringAlert → Except JsError Unit

/-- NotificationService.getUserNotificationSettings (part_002 lines
297-324): returns the settings row when present and null when absent; its
own catch turns a query error into null as well. -/
def getUserNotificationSettings
    (res : Except JsError (Option NotificationSettings)) :
    Option NotificationSettings :=
  match res with
  | Except.ok v => v
  | Except.error _ => none

/-- The channels enabled by a settings row, in the order the code builds
the notifications array: email when email_enabled, then each channel whose
endpoint string is truthy. -/
def enabledChannels (s : NotificationSettings) : List Channel :=
  (if s.email_enabled then [Channel.email] else []) ++
  (if jsTruthyStr s.slack_webhook_url then [Channel.slack] else []) ++
  (if jsTruthyStr s.telegram_chat_id then [Channel.telegram] else []) ++
  (if jsTruthyStr s.webhook_url then [Channel.webhook] else [])

/-- Result of one sendAlert run: the value returned to the caller, the
channels whose send was started, and the settled outcome of each started
send as collected by Promise.allSettled. -/
structure SendReport where
  result : Except JsError Unit
  attempted : List Channel
  settled : List (Except JsError Unit)

/-- NotificationService.sendAlert (part_002 lines 38-86): reads the
settings (null means warn and return), reads the user row (absent means
warn and return), pushes one send promise per enabled channel, and awaits
them with Promise.allSettled, which never rejects, so individual channel
failures neither stop the other channels nor reach the caller; the outer
catch logs and swallows any settings or user query error, so the function
always returns normally. -/
def sendAlert (env : SendEnv) (alert : MonitoringAlert) : SendReport :=
  match getUserNotificationSettings env.settingsQuery with
  | none => { result := Except.ok (), attempted := [], settled := [] }
  | some settings =>
      match env.userQuery with
      | Except.error _ => { result := Except.ok (), attempted := [], settled := [] }
      | Except.ok none => { result := Except.ok (), attempted := [], settled := [] }
      | Except.ok (some _user) =>
          let chans := enabledChannels settings
          { result := Except.ok ()
            attempted := chans
            settled := chans.map (fun c => env.channelSend c alert) }

/-- NotificationService.sendTestNotification (part_002 lines 381-393): a
fixed medium-severity test alert handed to sendAlert. -/
def testAlert (now : ℚ) : MonitoringAlert :=
  { id := "test-alert", agentId := "test-agent", type_ := "test_notification",
    severity := AlertSeverity.medium,
    message := "This is a test notification", timestamp := now,
    resolved := false }

/-- sendTestNotification delegates to sendAlert with the test alert. -/
def sendTestNotification (env : SendEnv) (now : ℚ) : SendReport :=
  sendAlert env (testAlert now)

/-- C6: sendAlert never raises to its caller; the set of attempted channels
is exactly the enabled channels when the settings row exists and the user
row is found, and empty otherwise — in particular it does not depend on the
channel send outcomes, so one channel raising never suppresses another
enabled channel and all started sends are settled; a settings query
failure and a missing settings row both end in a log-and-return with
nothing attempted. -/
theorem sendAlert_failure_isolation (env : SendEnv) (alert : MonitoringAlert) :
    ((sendAlert env alert).result = Except.ok ()) ∧
    ((sendAlert env alert).attempted =
      match getUserNotificationSettings env.settingsQuery, env.userQuery with
      | some s, Except.ok (some _) => enabledChannels s
      | _, _ => []) ∧
    (∀ send1 send2 : Channel → MonitoringAlert → Except JsError Unit,
      (sendAlert { env with channelSend := send1 } alert).attempted =
      (sendAlert { env with channelSend := send2 } alert).attempted) ∧
    ((sendAlert env alert).settled =
      (sendAlert env alert).attempted.map (fun c => env.channelSend c alert)) ∧
    (∀ e, env.settingsQuery = Except.error e →
      (sendAlert env alert).attempted = []) ∧
    (env.settingsQuery = Except.ok none →
      (sendAlert env alert).attempted = []) := by
  obtain ⟨sq, uq, cs⟩ := env
  refine ⟨?_, ?_, ?_, ?_, ?_, ?_⟩
  · cases sq with
    | error e => rfl
    | ok v =>
        cases v with
        | none => rfl
        | some s =>
            cases uq with
            | error e => rfl
            | ok u => cases u <;> rfl
  · cases sq with
    | error e => rfl
    | ok v =>
        cases v with
        | none => rfl
        | some s =>
            cases uq with
            | error e => rfl
            | ok u => cases u <;> rfl
  · intro send1 send2
    cases sq with
    | error e => rfl
    | ok v =>
        cases v with
        | none => rfl
        | some s =>
            cases uq with
            | error e => rfl
            | ok u => cases u <;> rfl
  · cases sq with
    | error e => rfl
    | ok v =>
        cases v with
        | none => rfl
        | some s =>
            cases uq with
            | error e => rfl
            | ok u => cases u <;> rfl
  · intro e he
    change sq = Except.error e at he
    subst he
    rfl
  · intro he
    change sq = Except.ok none at he
    subst he
    rfl

/-- Environment for the C6 witness: settings query fails. -/
def sendEnvSettingsError : SendEnv :=
  { settingsQuery := Except.error ⟨ "db down"⟩
    userQuery := Except.ok (some ⟨ "u@example.com"⟩)
    channelSend := fun _ _ => Except.ok () }

/-- Environment for the C6 witness: no settings row. -/
def sendEnvNoSettings : SendEnv :=
  { settingsQuery := Except.ok none
    userQuery := Except.ok (some ⟨ "u@example.com"⟩)
    channelSend := fun _ _ => Except.ok () }

/-- Witness for C6: with a failing settings query and with a missing
settings row, sendAlert attempts nothing, and the channel-independence
conjunct holds at two concrete senders of which one always raises. -/
theorem sendAlert_failure_isolation_witness :
    (sendAlert sendEnvSettingsError (testAlert 0)).attempted = [] ∧
    (sendAlert sendEnvNoSettings (testAlert 0)).attempted = [] ∧
    (sendAlert { sendEnvNoSettings with
        channelSend := fun _ _ => Except.error ⟨ "smtp down"⟩ } (testAlert 0)).attempted =
      (sendAlert { sendEnvNoSettings with
        channelSend := fun _ _ => Except.ok () } (testAlert 0)).attempted :=
  ⟨(sendAlert_failure_isolation sendEnvSettingsError (testAlert 0)).2.2.2.2.1
      ⟨ "db down"⟩ rfl,
   (sendAlert_failure_isolation sendEnvNoSettings (testAlert 0)).2.2.2.2.2 rfl,
   (sendAlert_failure_isolation sendEnvNoSettings (testAlert 0)).2.2.1
      (fun _ _ => Except.error ⟨ "smtp down"⟩) (fun _ _ => Except.ok ())⟩

/-- C10: the fanout applies no severity filter — the attempted channels of
sendAlert are the same for any two alerts whatever their severities; the
medium-severity test notification reaches exactly the enabled channels when
settings and user exist; and the high-or-critical gate lives solely in
createAlert, whose notification fanout invocation happens exactly when the
agent exists and the severity is high or critical. -/
theorem sendAlert_no_severity_filter (env : SendEnv) (a1 a2 : MonitoringAlert)
    (now : ℚ) (st : MonitoringState) (agentId : String) (d : AlertData)
    (newId : String) (t : ℚ) :
    ((sendAlert env a1).attempted = (sendAlert env a2).attempted) ∧
    ((testAlert now).severity = AlertSeverity.medium) ∧
    ((sendTestNotification env now).attempted =
      match getUserNotificationSettings env.settingsQuery, env.userQuery with
      | some s, Except.ok (some _) => enabledChannels s
      | _, _ => []) ∧
    ((createAlert st agentId d newId t).2.notified =
      st.notified ++
        match getAgentById st.agents agentId with
        | some agent =>
            if d.severity = AlertSeverity.high ∨ d.severity = AlertSeverity.critical
            then [(agent.user_id, newId)] else []
        | none => []) := by
  refine ⟨?_, rfl, ?_, ?_⟩
  · obtain ⟨sq, uq, cs⟩ := env
    cases sq with
    | error e => rfl
    | ok v =>
        cases v with
        | none => rfl
        | some s =>
            cases uq with
            | error e => rfl
            | ok u => cases u <;> rfl
  · obtain ⟨sq, uq, cs⟩ := env
    cases sq with
    | error e => rfl
    | ok v =>
        cases v with
        | none => rfl
        | some s =>
            cases uq with
            | error e => rfl
            | ok u => cases u <;> rfl
  · unfold createAlert
    cases hg : getAgentById st.agents agentId with
    | none => simp
    | some agent => simp
